import Mathlib

/-!
Verification of the RAG-Video-Transcription repository core:
shallow embedding of the Python sources

  src/src/vector_store.py        (VideoTranscriptionStore)
  src/src/retriever.py           (VideoRetriever)
  src/src/generator.py           (VideoResponseGenerator, VideoSegment, SearchResponse)
  src/app/streamlit_app.py       (parse_timestamp, merge_video_segments)
  src/src/app.py                 (parse_timestamp)

followed by theorems settling the spec claims.  Numeric values that Python
holds in floats are modelled as rationals; all values appearing in the
claims are finite decimals, exactly representable.  Python dictionaries
crossing the modelled boundaries are typed records; open-ended metadata
dictionaries are key-value lists.
-/

namespace RAGVideo

/-! ## String helpers -/

/-- Boolean list prefix test (executable). -/
def listPrefixOf {α : Type} [BEq α] : List α → List α → Bool
  | [], _ => true
  | _ :: _, [] => false
  | a :: as, b :: bs => a == b && listPrefixOf as bs

/-- Model of the Python substring test `needle in hay` on strings. -/
def strContains (hay needle : String) : Bool :=
  let h := hay.toList
  let n := needle.toList
  (List.range (h.length + 1)).any (fun i => listPrefixOf n (h.drop i))

/-- Split a character list at every occurrence of the separator
character; the empty list yields one empty group, like Python. -/
def splitChar (c : Char) : List Char → List (List Char)
  | [] => [[]]
  | x :: xs =>
      if x == c then [] :: splitChar c xs
      else
        match splitChar c xs with
        | [] => [[x]]
        | g :: gs => (x :: g) :: gs

/-- Model of Python `s.split(c)` for a one-character separator, the only
form the sources use (they split on a colon). -/
def pySplit (s : String) (c : Char) : List String :=
  (splitChar c s.toList).map String.mk

/-- Remove leading and trailing whitespace from a character list. -/
def pyStripList (cs : List Char) : List Char :=
  ((cs.dropWhile Char.isWhitespace).reverse.dropWhile Char.isWhitespace).reverse

/-- Model of Python `s.strip()`: drop surrounding whitespace. -/
def pyStrip (s : String) : String :=
  String.mk (pyStripList s.toList)

/-- Model of Python `s.lower()` on the ASCII texts of this program. -/
def pyLower (s : String) : String :=
  String.mk (s.toList.map Char.toLower)

/-! ## Model of Python `float(str)` on finite decimal literals

Python `float` accepts an optionally signed decimal literal with optional
fractional part, surrounded by optional whitespace.  The model covers
exactly these finite forms and rejects everything else (Python raises
`ValueError` there, modelled as `none`).  Exotic accepted forms that do not
occur in this code base (exponents, `inf`, `nan`, underscore separators)
are outside the model. -/

/-- Value of a digit string, most significant first. -/
def digitsToNat (cs : List Char) : Nat :=
  cs.foldl (fun n c => n * 10 + (c.toNat - 48)) 0

/-- Model of Python `float(s)` for finite decimal literals. -/
def parseFloatQ (s : String) : Option ℚ :=
  let t := pyStripList s.toList
  let (sign, rest) : ℚ × List Char :=
    match t with
    | '-' :: r => (-1, r)
    | '+' :: r => (1, r)
    | _ => (1, t)
  match splitChar '.' rest with
  | [ip] =>
      if ip.isEmpty || !ip.all Char.isDigit then none
      else some (sign * (digitsToNat ip : ℚ))
  | [ip, fp] =>
      if (ip.isEmpty && fp.isEmpty) || !ip.all Char.isDigit || !fp.all Char.isDigit then none
      else some (sign * ((digitsToNat ip : ℚ) + (digitsToNat fp : ℚ) / (10 ^ fp.length : ℚ)))
  | _ => none

/-! ## The two display-layer timestamp parsers (claim C10)

`parse_timestamp` exists twice: in src/app/streamlit_app.py lines 139-152
(returning a float, bare `except` fallback 0) and in src/src/app.py lines
98-112 (returning an int, `except (ValueError, TypeError)` fallback 0). -/

/-- src/app/streamlit_app.py lines 139-152: split on a colon; three parts
are hours, minutes, seconds; two parts are minutes, seconds; otherwise the
whole string is parsed as a float; any parse failure yields 0. -/
def parseTimestampSt (timestamp : String) : ℚ :=
  match pySplit timestamp ':' with
  | [h, m, s] =>
      match parseFloatQ h, parseFloatQ m, parseFloatQ s with
      | some hv, some mv, some sv => hv * 3600 + mv * 60 + sv
      | _, _, _ => 0
  | [m, s] =>
      match parseFloatQ m, parseFloatQ s with
      | some mv, some sv => mv * 60 + sv
      | _, _ => 0
  | _ => (parseFloatQ timestamp).getD 0

/-- Model of Python `int(x)` on a float: truncation toward zero. -/
def intTrunc (q : ℚ) : Int :=
  if q < 0 then ⌈q⌉ else ⌊q⌋

/-- src/src/app.py lines 98-112: same shape analysis, but the result is
passed through `int(...)` (truncation toward zero), and a colon-bearing
string of any other shape falls through to `int(float(timestamp))`, which
raises and is caught (fallback 0). -/
def parseTimestampApp (timestamp : String) : Int :=
  if timestamp.toList.contains ':' then
    match pySplit timestamp ':' with
    | [m, s] =>
        match parseFloatQ m, parseFloatQ s with
        | some mv, some sv => intTrunc (mv * 60 + sv)
        | _, _ => 0
    | [h, m, s] =>
        match parseFloatQ h, parseFloatQ m, parseFloatQ s with
        | some hv, some mv, some sv => intTrunc (hv * 3600 + mv * 60 + sv)
        | _, _, _ => 0
    | _ => match parseFloatQ timestamp with
           | some v => intTrunc v
           | none => 0
  else
    match parseFloatQ timestamp with
    | some v => intTrunc v
    | none => 0

/-! ## Segment consolidator: merge_video_segments (claim C3)

src/app/streamlit_app.py lines 154-218. -/

/-- One entry of the `videos` argument of `merge_video_segments`, as built
by the caller (streamlit_app.py lines 390-396): keys path, start_time,
end_time, text, score.  `end_time = none` models an absent key, for which
`video.get("end_time", video["start_time"])` yields the start time. -/
structure InVideo where
  path : String
  start_time : String
  end_time : Option String
  text : String
  score : ℚ
deriving DecidableEq, Repr

/-- The per-segment accumulator dict of `merge_video_segments` with keys
start, end, text, score (`end` is a Lean keyword, rendered `stop`). -/
structure SegAcc where
  start : ℚ
  stop : ℚ
  text : String
  score : ℚ
deriving DecidableEq, Repr

/-- One merged output entry: keys path, start_time, end_time, text, score
(streamlit_app.py lines 204-211). -/
structure OutVideo where
  path : String
  start_time : ℚ
  end_time : ℚ
  text : String
  score : ℚ
deriving DecidableEq, Repr

/-- Python `defaultdict` grouping with insertion-ordered keys: append the
segment to its path group, creating the group at the end if absent. -/
def insertGroup (groups : List (String × List SegAcc)) (p : String) (s : SegAcc) :
    List (String × List SegAcc) :=
  match groups with
  | [] => [(p, [s])]
  | (q, ss) :: rest =>
      if q == p then (q, ss ++ [s]) :: rest else (q, ss) :: insertGroup rest p s

/-- Stable insertion sort (Python `list.sort` is stable; with
`le x y = true` on equal keys the earlier element stays first). -/
def insertSorted {α : Type} (le : α → α → Bool) (x : α) : List α → List α
  | [] => [x]
  | y :: ys => if le x y then x :: y :: ys else y :: insertSorted le x ys

/-- Stable sort by a boolean comparison. -/
def sortStable {α : Type} (le : α → α → Bool) (xs : List α) : List α :=
  xs.foldr (insertSorted le) []

/-- The merge walk of streamlit_app.py lines 185-201: a following segment
merges into `current` when its start is at most current end + 5 (the
buffer); merging extends the end to the max, appends the segment text
(space separated) unless its stripped form is already a substring of the
accumulated text, and takes the max score.  Otherwise `current` is flushed
and the segment starts a new accumulator. -/
def mergeGroup (current : SegAcc) : List SegAcc → List SegAcc
  | [] => [current]
  | seg :: rest =>
      if seg.start ≤ current.stop + 5 then
        mergeGroup
          { start := current.start
            stop := max current.stop seg.stop
            text := if strContains current.text (pyStrip seg.text) then current.text
                    else current.text ++ " " ++ seg.text
            score := max current.score seg.score } rest
      else
        current :: mergeGroup seg rest

/-- src/app/streamlit_app.py lines 154-218 (`merge_video_segments`).
Parses each start, parses each end (an absent end defaults to the start)
and ADDS 10 to every parsed end (line 167), groups by path, sorts each
group by start, merges with the 5-second buffer, flattens with the
segment text stripped, sorts all merged windows by descending score and
keeps the first MAX_VIDEOS = 4. -/
def mergeVideoSegments (videos : List InVideo) : List OutVideo :=
  if videos.isEmpty then []
  else
    let groups := videos.foldl
      (fun gs v =>
        let s : SegAcc :=
          { start := parseTimestampSt v.start_time
            stop := parseTimestampSt (v.end_time.getD v.start_time) + 10
            text := v.text
            score := v.score }
        insertGroup gs v.path s) []
    let mergedVideos := groups.foldl
      (fun acc pg =>
        let sorted := sortStable (fun a b => decide (a.start ≤ b.start)) pg.2
        let merged := match sorted with
          | [] => []
          | c :: rest => mergeGroup c rest
        acc ++ merged.map (fun s =>
          ({ path := pg.1
             start_time := s.start
             end_time := s.stop
             text := pyStrip s.text
             score := s.score } : OutVideo))) ([] : List OutVideo)
    (sortStable (fun a b => decide (b.score ≤ a.score)) mergedVideos).take 4

/-! ## Vector store: VideoTranscriptionStore (claims C2, C6, C7)

src/src/vector_store.py.  The Elasticsearch index is modelled as the list
of stored langchain Documents; `is_video_upserted`'s index-existence
pre-check (lines 67-68, returning False when the index is missing) is
folded into the list model, where a query against an empty store simply
finds nothing.  Failure paths of the remote calls (caught and logged in
the source) are outside the pure model. -/

/-- Metadata of a stored Document (vector_store.py lines 148-155): the
per-video metadata from TranscriptProcessor.extract_metadata plus the
segment's start and end.  The fields of extract_metadata other than
video_filename (sizes, dates, transcript name, extension) ride along as an
open key-value list, like the `{**metadata}` splat. -/
structure DocMeta where
  video_filename : String
  start_time : String
  end_time : String
  extra : List (String × String)
deriving DecidableEq, Repr

/-- A langchain Document: page_content plus metadata. -/
structure Doc where
  page_content : String
  metadata : DocMeta
deriving DecidableEq, Repr

/-- A parsed transcript segment dict as returned in
TranscriptProcessor.process_video's "segments" list
(transcript_processor.py line 16): keys text, start_time, end_time. -/
structure RawSeg where
  text : String
  start_time : String
  end_time : String
deriving DecidableEq, Repr

/-- The dedup key of upsert_video (vector_store.py lines 131-135). -/
def segKey (s : RawSeg) : String × String × String :=
  (s.text, s.start_time, s.end_time)

/-- The (content, start, end) triple of a stored document. -/
def docTriple (d : Doc) : String × String × String :=
  (d.page_content, d.metadata.start_time, d.metadata.end_time)

/-- First-occurrence-wins deduplication by a key, carrying the
already-seen key set — the `seen_segments` pattern used both by
upsert_video (lines 126-141) and search_transcriptions (lines 197-210). -/
def dedupBy {α κ : Type} [DecidableEq κ] (key : α → κ) (seen : List κ) :
    List α → List α
  | [] => []
  | x :: xs =>
      if key x ∈ seen then dedupBy key seen xs
      else x :: dedupBy key (key x :: seen) xs

/-- The filesystem-and-processor environment of one indexing run, assumed
unchanged between the calls a claim compares ("no underlying file
changes"):  which video files exist, whether a matching transcript is
found, whether a transcriber is configured, and what process_video yields
(`segments` from parse_vtt; `metaExtra` the extract_metadata fields other
than video_filename). -/
structure FsEnv where
  videoExists : String → Bool
  transcriptFound : String → Bool
  hasTranscriber : Bool
  segments : String → List RawSeg
  metaExtra : String → List (String × String)

/-- vector_store.py lines 60-84 (`is_video_upserted`): any stored document
whose metadata video_filename equals the queried filename. -/
def isVideoUpserted (store : List Doc) (f : String) : Bool :=
  store.any (fun d => d.metadata.video_filename == f)

/-- The document batch built by upsert_video (vector_store.py lines
125-156): segments deduplicated on (text, start_time, end_time), each
becoming a Document whose metadata is the shared video metadata (with a
defensive deletion of a segment_id key, line 145-146) plus the segment
times.  extract_metadata sets video_filename to the video's file name
(transcript_processor.py line 57); filenames are treated as atomic names,
as produced by the `glob` in upsert_all_videos. -/
def buildDocuments (segs : List RawSeg) (f : String)
    (extra : List (String × String)) : List Doc :=
  (dedupBy segKey [] segs).map (fun s =>
    { page_content := s.text
      metadata :=
        { video_filename := f
          start_time := s.start_time
          end_time := s.end_time
          extra := extra.filter (fun kv => kv.1 ≠ "segment_id") } })

/-- vector_store.py lines 86-168 (`upsert_video`), returning the new store
contents and the number of documents embedded and added (0 on every skip
path).  In order: missing video file → return; already upserted → skip;
no transcript and no transcriber → return; otherwise process, dedup,
build the batch and add it when nonempty.  When a transcriber generates a
transcript, processing then proceeds on the generated file. -/
def upsertVideo (env : FsEnv) (store : List Doc) (f : String) :
    List Doc × Nat :=
  if !env.videoExists f then (store, 0)
  else if isVideoUpserted store f then (store, 0)
  else if !env.transcriptFound f && !env.hasTranscriber then (store, 0)
  else
    let docs := buildDocuments (env.segments f) f (env.metaExtra f)
    if docs.isEmpty then (store, 0) else (store ++ docs, docs.length)

/-- A sequence of upsert_video calls starting from an empty store. -/
def runUpserts (env : FsEnv) (calls : List String) : List Doc :=
  calls.foldl (fun s f => (upsertVideo env s f).1) []

/-- Per-video dedup invariant of the store: for every filename, no two of
its stored documents share the (content, start_time, end_time) triple. -/
def PerVideoNodup (store : List Doc) : Prop :=
  ∀ f, (((store.filter (fun d => d.metadata.video_filename == f)).map docTriple)).Nodup

/-! ### search_transcriptions (claim C6) -/

/-- The vector-store search collaborator:
`similarity_search_with_score(query, k, filter)` returning scored
documents in the store's relevance order.  The only modelled call site
passes `filter=None` (retriever.py line 77 leaves filter_metadata unset). -/
structure StoreEnv where
  similarity : String → Nat → List (Doc × ℚ)

/-- The dedup key of search_transcriptions (vector_store.py lines
201-207): content, start, end and video filename; the score is not part
of the key. -/
def pairKey (p : Doc × ℚ) : String × String × String × String :=
  (p.1.page_content, p.1.metadata.start_time, p.1.metadata.end_time,
   p.1.metadata.video_filename)

/-- A formatted search result dict (vector_store.py lines 219-226). -/
structure RawResult where
  text : String
  start_time : String
  end_time : String
  video_filename : String
  relevance_score : ℚ
  metadata : List (String × String)
deriving DecidableEq, Repr

/-- The dedup key of a formatted result. -/
def rawKey (r : RawResult) : String × String × String × String :=
  (r.text, r.start_time, r.end_time, r.video_filename)

/-- vector_store.py lines 212-226: the reduced metadata (everything but
start_time, end_time, video_filename, segment_id) and the result dict. -/
def formatSearchResult (d : Doc) (score : ℚ) : RawResult :=
  { text := d.page_content
    start_time := d.metadata.start_time
    end_time := d.metadata.end_time
    video_filename := d.metadata.video_filename
    relevance_score := score
    metadata := d.metadata.extra.filter (fun kv =>
      kv.1 ∉ ["start_time", "end_time", "video_filename", "segment_id"]) }

/-- The collection loop of search_transcriptions (vector_store.py lines
197-231): walk the scored results in order, skip already-seen keys,
append the formatted result otherwise, and break as soon as k unique
results have been accumulated. -/
def searchCollect (k : Nat) (seen : List (String × String × String × String))
    (acc : List RawResult) : List (Doc × ℚ) → List RawResult
  | [] => acc
  | p :: rest =>
      if pairKey p ∈ seen then searchCollect k seen acc rest
      else
        let acc2 := acc ++ [formatSearchResult p.1 p.2]
        if acc2.length ≥ k then acc2
        else searchCollect k (pairKey p :: seen) acc2 rest

/-- vector_store.py lines 177-233 (`search_transcriptions`): request k*2
candidates from the vector store, then deduplicate first-occurrence-wins
and stop at k unique results. -/
def searchTranscriptions (env : StoreEnv) (query : String) (k : Nat) :
    List RawResult :=
  searchCollect k [] [] (env.similarity query (k * 2))

/-! ## Retriever: VideoRetriever (claim C1)

src/src/retriever.py. -/

/-- Left-pad a numeral with zeros to the given width. -/
def padZeros (w : Nat) (s : String) : String :=
  if s.length ≥ w then s
  else String.mk (List.replicate (w - s.length) '0') ++ s

/-- The HH:MM:SS.mmm rendering of retriever.py lines 45-47
(`divmod` twice, then an f-string with fields 02d, 02d, 06.3f).  Python
`divmod` on floats uses floor semantics, modelled with `Int.fdiv` /
`Int.fmod`; the 3-decimal float formatting is modelled as
round-half-up — no modelled input exercises the half-way case. -/
def formatSecondsHMS (seconds : ℚ) : String :=
  let m1 : Int := ⌊seconds / 60⌋
  let s : ℚ := seconds - 60 * (m1 : ℚ)
  let h : Int := Int.fdiv m1 60
  let m : Int := Int.fmod m1 60
  let ms : Int := ⌊s * 1000 + 1 / 2⌋
  padZeros 2 (toString h) ++ ":" ++ padZeros 2 (toString m) ++ ":" ++
    padZeros 2 (toString (Int.fdiv ms 1000)) ++ "." ++
    padZeros 3 (toString (Int.fmod ms 1000))

/-- retriever.py lines 36-49 (`format_timestamp`): parse the stored time
string as a float and render HH:MM:SS.mmm; on a parse failure return the
input string unchanged (the `except` branch). -/
def formatTimestamp (t : String) : String :=
  match parseFloatQ t with
  | some sec => formatSecondsHMS sec
  | none => t

/-- A result dict of VideoRetriever.format_result (retriever.py lines
58-67): keys text, video, timestamp (start and end), score, metadata. -/
structure FormattedResult where
  text : String
  video : String
  tsStart : String
  tsEnd : String
  score : ℚ
  metadata : List (String × String)
deriving DecidableEq, Repr

/-- retriever.py lines 51-71 (`format_result`). -/
def formatResult (r : RawResult) : FormattedResult :=
  { text := r.text
    video := r.video_filename
    tsStart := formatTimestamp r.start_time
    tsEnd := formatTimestamp r.end_time
    score := r.relevance_score
    metadata := r.metadata }

/-- retriever.py lines 73-89 (`VideoRetriever.search`): fetch from
search_transcriptions, format each result and keep those with a nonempty
text (`if result and result.get("text")`).  The parameter list is
(self, query, k) — there is no score_threshold parameter and no score
filtering in the body. -/
def retrieverSearch (env : StoreEnv) (query : String) (k : Nat) :
    List FormattedResult :=
  (searchTranscriptions env query k).foldl
    (fun acc r =>
      let fr := formatResult r
      if fr.text == "" then acc else acc ++ [fr]) []

/-! ## Generator: VideoResponseGenerator (claims C1, C4, C5, C8, C9)

src/src/generator.py. -/

/-- The Python exception classes distinguished by generate_response's
handlers: ValueError and TypeError (caught together, lines 264-268) and
every other Exception (lines 269-277), carrying `str(e)`. -/
inductive PyError where
  | valueError (msg : String)
  | typeError (msg : String)
  | other (msg : String)
deriving DecidableEq, Repr

/-- The `str(e)` text of an exception. -/
def PyError.message : PyError → String
  | .valueError m => m
  | .typeError m => m
  | .other m => m

/-- generator.py lines 15-23 (`VideoTimestamp`), an immutable dataclass. -/
structure VideoTimestamp where
  start : String
  stop : String
deriving DecidableEq, Repr

/-- generator.py lines 26-63 (`VideoSegment`), a frozen dataclass whose
metadata field carries `field(hash=False)`: metadata is omitted from the
generated `__hash__` but NOT from the generated `__eq__`, which compares
all fields.  The metadata dict is modelled as a key-value list. -/
structure VideoSegment where
  text : String
  video : String
  timestamp : VideoTimestamp
  score : ℚ
  metadata : List (String × String)
deriving DecidableEq, Repr

/-- The dataclass-generated equality of VideoSegment: fields are compared
positionally, metadata included (dataclasses exclude a field from `__eq__`
only via `compare=False`, which the source does not use). -/
def videoSegmentPyEq (a b : VideoSegment) : Bool :=
  a.text == b.text && a.video == b.video && a.timestamp == b.timestamp &&
    a.score == b.score && a.metadata == b.metadata

/-- The tuple the dataclass-generated `__hash__` of VideoSegment hashes:
the fields with `hash` not set to False — text, video, timestamp, score,
without metadata. -/
def videoSegmentHashFields (s : VideoSegment) :
    String × String × VideoTimestamp × ℚ :=
  (s.text, s.video, s.timestamp, s.score)

/-- The dictionary form produced by VideoSegment.to_dict (generator.py
lines 55-63), with the nested timestamp dict flattened into its two
entries. -/
structure SegDict where
  text : String
  video : String
  tsStart : String
  tsEnd : String
  score : ℚ
  metadata : List (String × String)
deriving DecidableEq, Repr

/-- generator.py lines 55-63 (`to_dict`). -/
def videoSegmentToDict (s : VideoSegment) : SegDict :=
  { text := s.text
    video := s.video
    tsStart := s.timestamp.start
    tsEnd := s.timestamp.stop
    score := s.score
    metadata := s.metadata }

/-- generator.py lines 38-53 (`from_dict`): note `str(data["text"]).strip()`
on the text field; the other coercions are identities on the typed dict.
The ValueError path (missing keys, bad types) cannot arise on a typed
SegDict and is outside the model. -/
def videoSegmentFromDict (d : SegDict) : VideoSegment :=
  { text := pyStrip d.text
    video := d.video
    timestamp := { start := d.tsStart, stop := d.tsEnd }
    score := d.score
    metadata := d.metadata }

/-- generator.py lines 66-77 (`SearchResponse`). -/
structure SearchResponse where
  answer : String
  sources : List VideoSegment
  error : Option String
deriving DecidableEq, Repr

/-- generator.py lines 74-77: `has_error` is `bool(self.error)` — true
exactly when error is set to a nonempty string. -/
def SearchResponse.hasError (r : SearchResponse) : Bool :=
  match r.error with
  | none => false
  | some s => !(s == "")

/-- The fallback answer of every error response (no trailing period). -/
def noInfoAnswer : String := "I don\x27t have enough information"

/-- The success-shaped answer for zero segments (with trailing period). -/
def noInfoAnswerDot : String := "I don\x27t have enough information."

/-- generator.py lines 137-145 (`_validate_query`): the trimmed length
must lie in [MIN_QUERY_LENGTH, MAX_QUERY_LENGTH] = [3, 500]; a violation
raises ValueError.  Only string queries are modelled, so the isinstance
TypeError branch is vacuous. -/
def validateQuery (query : String) : Except PyError Unit :=
  if 3 ≤ (pyStrip query).length ∧ (pyStrip query).length ≤ 500 then .ok ()
  else .error (.valueError "Query length must be between 3 and 500 characters")

/-- generator.py lines 147-154 (`_validate_search_params`): k must be a
positive integer (k is modelled as a natural number, so only the k < 1
check can fire) and score_threshold must lie in [0, 1]. -/
def validateSearchParams (k : Nat) (scoreThreshold : ℚ) : Except PyError Unit :=
  if k < 1 then .error (.valueError "k must be a positive integer")
  else if 0 ≤ scoreThreshold ∧ scoreThreshold ≤ 1 then .ok ()
  else .error (.valueError "score_threshold must be between 0 and 1")

/-- generator.py lines 156-165 (`_process_search_results`): each raw dict
becomes a VideoSegment via from_dict; on the typed formatted results every
conversion succeeds, so none is skipped. -/
def processSearchResults (rs : List FormattedResult) : List VideoSegment :=
  rs.map (fun r =>
    videoSegmentFromDict
      { text := r.text
        video := r.video
        tsStart := r.tsStart
        tsEnd := r.tsEnd
        score := r.score
        metadata := r.metadata })

/-- Sources of a successful response (generator.py lines 251-253): sorted
by descending score (Python stable sort), truncated to
DEFAULT_SEARCH_LIMIT. -/
def topSources (limit : Nat) (segments : List VideoSegment) :
    List VideoSegment :=
  (sortStable (fun a b => decide (b.score ≤ a.score)) segments).take limit

/-- Parameter names of VideoRetriever.search, retriever.py line 73:
def search(self, query, k=5). -/
def retrieverSearchParams : List String := ["self", "query", "k"]

/-- Keyword arguments passed to retriever.search by generate_response,
generator.py lines 223-225. -/
def generatorSearchCallKwargs : List String := ["query", "k", "score_threshold"]

/-- A Python call is accepted only if every keyword argument names a
parameter; otherwise it raises TypeError before the callee body runs. -/
def searchCallOk : Bool :=
  generatorSearchCallKwargs.all (fun a => retrieverSearchParams.contains a)

/-- The TypeError message CPython raises at generator.py line 223. -/
def searchKwargMsg : String :=
  "search() got an unexpected keyword argument \x27score_threshold\x27"

/-- The retry loop of generate_response (generator.py lines 240-262), as a
function of the model-call collaborator (attempt index to outcome; the
messages are fixed across attempts) over the remaining `range(max_retries)`
attempt indices.  Returns the loop outcome — produced text, fall-through
(Python implicitly returns None when the range is empty), or the raised
exception — paired with the number of model calls made.  An exception is
swallowed and retried exactly when its text contains "rate limit"
case-insensitively and attempts remain (line 256); otherwise it is
re-raised. -/
def genLoopGo (llm : Nat → Except PyError String) (maxRetries : Nat) :
    List Nat → Except PyError (Option String) × Nat
  | [] => (.ok none, 0)
  | attempt :: rest =>
      match llm attempt with
      | .ok text => (.ok (some text), 1)
      | .error e =>
          if strContains (pyLower e.message) "rate limit" ∧ attempt + 1 < maxRetries then
            let r := genLoopGo llm maxRetries rest
            (r.1, r.2 + 1)
          else (.error e, 1)

/-- The exception handlers of generate_response (generator.py lines
264-277): ValueError and TypeError yield an "Invalid input" response; any
other exception yields the rate-limit-specific message when its text
contains "rate limit" case-insensitively and the generic "Error" message
otherwise.  Every handler returns the fallback answer and no sources. -/
def handleError (e : PyError) : SearchResponse :=
  match e with
  | .valueError m =>
      { answer := noInfoAnswer, sources := [], error := some ("Invalid input: " ++ m) }
  | .typeError m =>
      { answer := noInfoAnswer, sources := [], error := some ("Invalid input: " ++ m) }
  | .other m =>
      if strContains (pyLower m) "rate limit" then
        { answer := noInfoAnswer, sources := [],
          error := some "Rate limit exceeded. Please try again later." }
      else
        { answer := noInfoAnswer, sources := [], error := some ("Error: " ++ m) }

/-- The generator's collaborators: the vector store behind the retriever,
the chat-completion call (attempt index to outcome — the prompt is fixed
per invocation and does not influence these claims), and
DEFAULT_SEARCH_LIMIT.

Modelled from the spec: DEFAULT_SEARCH_LIMIT is read from
`config.retrieval["max_sources"]` of the config_utils module, which is not
among the source files; spec section 4.6 fixes only "a default display
limit (e.g., 3-5)", so the limit is kept as an environment parameter. -/
structure GenEnv where
  store : StoreEnv
  llm : Nat → Except PyError String
  maxSources : Nat

/-- generator.py lines 208-277 (`generate_response`): validate the query,
validate the search parameters, invoke retriever.search — passing the
keyword arguments of lines 223-225, which do not match the parameters of
retriever.py line 73, so the call raises TypeError and the remainder of
the try block is dead — then convert the results, short-circuit on zero
segments, and otherwise run the retry loop.  Exceptions reach the handlers
of lines 264-277.  The first component is the returned response (`none`
models Python returning None when the retry range is empty) and the second
the number of model calls made. -/
def generateResponse (env : GenEnv) (query : String) (k : Nat)
    (scoreThreshold : ℚ) (maxRetries : Nat) : Option SearchResponse × Nat :=
  match validateQuery query with
  | .error e => (some (handleError e), 0)
  | .ok _ =>
  match validateSearchParams k scoreThreshold with
  | .error e => (some (handleError e), 0)
  | .ok _ =>
  if searchCallOk then
    let raw := retrieverSearch env.store query k
    let segments := processSearchResults raw
    if segments.isEmpty then
      (some { answer := noInfoAnswerDot, sources := [], error := none }, 0)
    else
      match genLoopGo env.llm maxRetries (List.range maxRetries) with
      | (.ok (some text), n) =>
          (some { answer := text, sources := topSources env.maxSources segments,
                  error := none }, n)
      | (.ok none, n) => (none, n)
      | (.error e, n) => (some (handleError e), n)
  else (some (handleError (.typeError searchKwargMsg)), 0)

/-! ## Concrete instances used by witnesses and counterexamples -/

/-- The three-segment input of spec section 8: (start, end) windows
(0,10), (8,15), (30,40) on one video. -/
def c3Input : List InVideo :=
  [ { path := "v.mp4", start_time := "0", end_time := some "10",
      text := "alpha", score := 3/10 },
    { path := "v.mp4", start_time := "8", end_time := some "15",
      text := "bravo", score := 1/2 },
    { path := "v.mp4", start_time := "30", end_time := some "40",
      text := "charlie", score := 2/5 } ]

/-- A single segment whose end key is absent. -/
def c3SingleAbsent : List InVideo :=
  [ { path := "w.mp4", start_time := "7", end_time := none,
      text := "solo", score := 1/4 } ]

/-- A single segment whose end key is present (end 10). -/
def c3PresentOne : List InVideo :=
  [ { path := "u.mp4", start_time := "0", end_time := some "10",
      text := "hello", score := 1/2 } ]

/-- A stored document for video v.mp4 with VTT-style times. -/
def docJupiter : Doc :=
  { page_content := "jupiter storm"
    metadata := { video_filename := "v.mp4", start_time := "00:00:01.000",
                  end_time := "00:00:04.000",
                  extra := [("video_size_bytes", "10")] } }

/-- A stored document for video w.mp4. -/
def docSecond : Doc :=
  { page_content := "install python"
    metadata := { video_filename := "w.mp4", start_time := "1",
                  end_time := "2", extra := [] } }

/-- A store whose similarity search returns one low-scored document. -/
def storeOne : StoreEnv := { similarity := fun _ _ => [(docJupiter, 1/10)] }

/-- A store returning an exact duplicate followed by a distinct document. -/
def storeDup : StoreEnv :=
  { similarity := fun _ _ => [(docJupiter, 9/10), (docJupiter, 8/10), (docSecond, 7/10)] }

/-- A store whose similarity search returns nothing. -/
def storeEmpty : StoreEnv := { similarity := fun _ _ => [] }

/-- A model call that raises a rate-limit failure on the first two
attempts and succeeds on the third. -/
def llmThirdTry : Nat → Except PyError String :=
  fun attempt =>
    if attempt < 2 then .error (.other "Rate limit exceeded")
    else .ok "Jupiter has a storm."

/-- A model call that always raises a rate-limit failure. -/
def llmLimited : Nat → Except PyError String :=
  fun _ => .error (.other "Rate limit exceeded")

/-- Generator environment for the third-try scenario. -/
def envThirdTry : GenEnv := { store := storeOne, llm := llmThirdTry, maxSources := 5 }

/-- Generator environment over an empty store. -/
def envEmptyStore : GenEnv :=
  { store := storeEmpty, llm := llmThirdTry, maxSources := 5 }

/-- A transcript segment, plus an exact duplicate and a distinct one. -/
def rawSegA : RawSeg :=
  { text := "jupiter storm", start_time := "00:00:01.000", end_time := "00:00:04.000" }

/-- A second, distinct transcript segment. -/
def rawSegB : RawSeg :=
  { text := "install python", start_time := "00:00:05.000", end_time := "00:00:09.000" }

/-- A filesystem environment: every video exists, transcripts are found,
no transcriber, and processing yields a duplicated segment list. -/
def fsEnvA : FsEnv :=
  { videoExists := fun _ => true
    transcriptFound := fun _ => true
    hasTranscriber := false
    segments := fun _ => [rawSegA, rawSegA, rawSegB]
    metaExtra := fun _ => [("video_size_bytes", "10")] }

/-- A store already holding a document of video v.mp4. -/
def storeWithV : List Doc := [docJupiter]

/-- A VideoSegment whose text carries surrounding whitespace. -/
def segPadded : VideoSegment :=
  { text := " hi ", video := "v.mp4", timestamp := { start := "0", stop := "5" },
    score := 1/2, metadata := [] }

/-! ## Helper lemmas -/

instance {ε α : Type} [DecidableEq ε] [DecidableEq α] :
    DecidableEq (Except ε α) := fun x y =>
  match x, y with
  | .ok a, .ok b =>
      if h : a = b then isTrue (by rw [h])
      else isFalse (by intro hc; cases hc; exact h rfl)
  | .ok _, .error _ => isFalse (by intro hc; cases hc)
  | .error _, .ok _ => isFalse (by intro hc; cases hc)
  | .error e, .error f =>
      if h : e = f then isTrue (by rw [h])
      else isFalse (by intro hc; cases hc; exact h rfl)

theorem splitChar_ne_nil (c : Char) (cs : List Char) : splitChar c cs ≠ [] := by
  induction cs with
  | nil => simp [splitChar]
  | cons x xs ih =>
      simp only [splitChar]
      split
      · simp
      · rcases h : splitChar c xs with _ | ⟨g, gs⟩ <;> simp

theorem splitChar_not_mem (c : Char) (cs : List Char) (h : c ∉ cs) :
    splitChar c cs = [cs] := by
  induction cs with
  | nil => simp [splitChar]
  | cons x xs ih =>
      simp only [List.mem_cons, not_or] at h
      have hx : (x == c) = false := by
        simp only [beq_eq_false_iff_ne]
        exact fun hxc => h.1 hxc.symm
      simp [splitChar, hx, ih h.2]

theorem splitChar_length_ge_two (c : Char) (cs : List Char) (h : c ∈ cs) :
    2 ≤ (splitChar c cs).length := by
  induction cs with
  | nil => cases h
  | cons x xs ih =>
      simp only [splitChar]
      by_cases hx : (x == c) = true
      · have hne := splitChar_ne_nil c xs
        have hlen : 1 ≤ (splitChar c xs).length := by
          cases hsp : splitChar c xs with
          | nil => exact absurd hsp hne
          | cons g gs => simp
        simp only [hx, if_true, List.length_cons]
        omega
      · have hmem : c ∈ xs := by
          rcases List.mem_cons.mp h with h1 | h2
          · exact absurd (by simp [h1]) hx
          · exact h2
        rcases hsp : splitChar c xs with _ | ⟨g, gs⟩
        · exact absurd hsp (splitChar_ne_nil c xs)
        · have := ih hmem
          rw [hsp] at this
          simp only [hx, if_false, hsp, Bool.false_eq_true]
          simpa using this

theorem string_mk_toList (s : String) : String.mk s.toList = s := rfl

theorem pySplit_not_contains (t : String) (h : ':' ∉ t.toList) :
    pySplit t ':' = [t] := by
  have h2 : ':' ∉ t.data := h
  simp only [pySplit]
  rw [show t.toList = t.data from rfl, splitChar_not_mem ':' t.data h2]
  rfl

theorem intTrunc_zero : intTrunc 0 = 0 := by
  simp [intTrunc]

theorem buildDocuments_filename (segs : List RawSeg) (f : String)
    (extra : List (String × String)) :
    ∀ d ∈ buildDocuments segs f extra, d.metadata.video_filename = f := by
  intro d hd
  simp only [buildDocuments, List.mem_map] at hd
  rcases hd with ⟨s, _, rfl⟩
  rfl

theorem isVideoUpserted_append_of (store docs : List Doc) (f : String)
    (hne : docs ≠ []) (hall : ∀ d ∈ docs, d.metadata.video_filename = f) :
    isVideoUpserted (store ++ docs) f = true := by
  cases docs with
  | nil => exact absurd rfl hne
  | cons d ds =>
      have hd : d.metadata.video_filename = f := hall d (by simp)
      simp [isVideoUpserted, List.any_append, hd]

theorem dedupBy_key_notin {α κ : Type} [DecidableEq κ] (key : α → κ)
    (seen : List κ) (xs : List α) :
    ∀ x ∈ dedupBy key seen xs, key x ∉ seen := by
  induction xs generalizing seen with
  | nil => simp [dedupBy]
  | cons a as ih =>
      intro x hx
      simp only [dedupBy] at hx
      by_cases hm : key a ∈ seen
      · rw [if_pos hm] at hx
        exact ih seen x hx
      · rw [if_neg hm] at hx
        rcases List.mem_cons.mp hx with rfl | hx2
        · exact hm
        · have := ih (key a :: seen) x hx2
          intro hin
          exact this (List.mem_cons_of_mem _ hin)

theorem dedupBy_keys_nodup {α κ : Type} [DecidableEq κ] (key : α → κ)
    (seen : List κ) (xs : List α) :
    ((dedupBy key seen xs).map key).Nodup := by
  induction xs generalizing seen with
  | nil => simp [dedupBy]
  | cons a as ih =>
      simp only [dedupBy]
      by_cases hm : key a ∈ seen
      · rw [if_pos hm]
        exact ih seen
      · rw [if_neg hm]
        simp only [List.map_cons, List.nodup_cons]
        constructor
        · intro hmem
          rcases List.mem_map.mp hmem with ⟨x, hx, hkx⟩
          have := dedupBy_key_notin key (key a :: seen) as x hx
          exact this (hkx ▸ List.mem_cons_self _ _)
        · exact ih (key a :: seen)

theorem buildDocuments_triples_nodup (segs : List RawSeg) (f : String)
    (extra : List (String × String)) :
    ((buildDocuments segs f extra).map docTriple).Nodup := by
  have heq : (buildDocuments segs f extra).map docTriple =
      (dedupBy segKey [] segs).map segKey := by
    simp only [buildDocuments, List.map_map]
    rfl
  rw [heq]
  exact dedupBy_keys_nodup segKey [] segs

theorem perVideoNodup_upsert (env : FsEnv) (store : List Doc) (f : String)
    (h : PerVideoNodup store) : PerVideoNodup (upsertVideo env store f).1 := by
  by_cases hv : env.videoExists f = true
  · by_cases hu : isVideoUpserted store f = true
    · simpa [upsertVideo, hv, hu] using h
    · by_cases hc : (!env.transcriptFound f && !env.hasTranscriber) = true
      · simpa [upsertVideo, hv, hu, hc] using h
      · by_cases hd : (buildDocuments (env.segments f) f (env.metaExtra f)).isEmpty = true
        · simpa [upsertVideo, hv, hu, hc, hd] using h
        · have h1 : (upsertVideo env store f).1 =
              store ++ buildDocuments (env.segments f) f (env.metaExtra f) := by
            simp [upsertVideo, hv, hu, hc, hd]
          rw [h1]
          intro g
          rw [List.filter_append]
          by_cases hg : g = f
          · subst hg
            have hsf : store.filter
                (fun d => d.metadata.video_filename == g) = [] := by
              rw [List.filter_eq_nil]
              intro d hdmem hval
              apply hu
              simp only [isVideoUpserted, List.any_eq_true]
              exact ⟨d, hdmem, hval⟩
            have hdf : (buildDocuments (env.segments g) g (env.metaExtra g)).filter
                (fun d => d.metadata.video_filename == g) =
                buildDocuments (env.segments g) g (env.metaExtra g) := by
              rw [List.filter_eq_self]
              intro d hdmem
              simp [buildDocuments_filename (env.segments g) g (env.metaExtra g) d hdmem]
            rw [hsf, hdf, List.nil_append]
            exact buildDocuments_triples_nodup (env.segments g) g (env.metaExtra g)
          · have hdf : (buildDocuments (env.segments f) f (env.metaExtra f)).filter
                (fun d => d.metadata.video_filename == g) = [] := by
              rw [List.filter_eq_nil]
              intro d hdmem hval
              have := buildDocuments_filename (env.segments f) f (env.metaExtra f) d hdmem
              rw [this] at hval
              have hfg : f = g := by simpa using hval
              exact hg hfg.symm
            rw [hdf, List.append_nil]
            exact h g
  · simpa [upsertVideo, hv] using h

theorem searchCollect_eq (k : Nat) (xs : List (Doc × ℚ)) :
    ∀ (seen : List (String × String × String × String)) (acc : List RawResult),
      acc.length < k →
      searchCollect k seen acc xs =
        acc ++ ((dedupBy pairKey seen xs).map
          (fun p => formatSearchResult p.1 p.2)).take (k - acc.length) := by
  induction xs with
  | nil =>
      intro seen acc h
      simp [searchCollect, dedupBy]
  | cons p rest ih =>
      intro seen acc hacc
      by_cases hm : pairKey p ∈ seen
      · simp only [searchCollect, dedupBy, if_pos hm]
        exact ih seen acc hacc
      · simp only [searchCollect, dedupBy, if_neg hm]
        by_cases hge : (acc ++ [formatSearchResult p.1 p.2]).length ≥ k
        · rw [if_pos hge]
          have h1 : k - acc.length = 1 := by
            simp only [List.length_append, List.length_cons, List.length_nil] at hge
            omega
          rw [List.map_cons, h1]
          simp
        · rw [if_neg hge]
          have hacc2 : (acc ++ [formatSearchResult p.1 p.2]).length < k := by
            omega
          rw [ih (pairKey p :: seen) _ hacc2]
          have h2 : k - acc.length = (k - (acc ++ [formatSearchResult p.1 p.2]).length) + 1 := by
            simp only [List.length_append, List.length_cons, List.length_nil]
            omega
          rw [List.map_cons, h2, List.take_succ_cons]
          simp

/-! ## Claim C10 -/

/-- C10 counterexample: the claim asserts that parse_timestamp returns a
non-negative number of seconds for every string input, but on the input
"-5" both display-layer parsers return -5, which is negative. -/
theorem parse_timestamp_nonneg_counterexample :
    parseTimestampSt "-5" = -5 ∧ parseTimestampApp "-5" = -5 ∧
      ¬ (0 ≤ parseTimestampSt "-5") := by
  with_unfolding_all decide

/-- C10 amended: the display-layer timestamp parsers are total over the
modelled finite-decimal float literals and return a number of seconds
that may be negative when the input encodes negative components: a
three-part colon split is converted as hours, minutes, seconds, a
two-part split as minutes, seconds, a bare number directly, and every
unparseable input yields 0; the src/src/app.py parser agrees with the
streamlit parser up to int() truncation toward zero. -/
theorem parse_timestamp_parsers_amended :
    (∀ t a b c x y z, pySplit t ':' = [a, b, c] →
       parseFloatQ a = some x → parseFloatQ b = some y → parseFloatQ c = some z →
       parseTimestampSt t = x * 3600 + y * 60 + z)
  ∧ (∀ t a b x y, pySplit t ':' = [a, b] →
       parseFloatQ a = some x → parseFloatQ b = some y →
       parseTimestampSt t = x * 60 + y)
  ∧ (∀ t x, pySplit t ':' = [t] → parseFloatQ t = some x → parseTimestampSt t = x)
  ∧ (∀ t, (pySplit t ':').length ≠ 2 → (pySplit t ':').length ≠ 3 →
       parseFloatQ t = none → parseTimestampSt t = 0)
  ∧ (∀ t a b, pySplit t ':' = [a, b] →
       (parseFloatQ a = none ∨ parseFloatQ b = none) → parseTimestampSt t = 0)
  ∧ (∀ t a b c, pySplit t ':' = [a, b, c] →
       (parseFloatQ a = none ∨ parseFloatQ b = none ∨ parseFloatQ c = none) →
       parseTimestampSt t = 0)
  ∧ (∀ t, parseTimestampApp t = intTrunc (parseTimestampSt t)) := by
  refine ⟨?_, ?_, ?_, ?_, ?_, ?_, ?_⟩
  · intro t a b c x y z hs ha hb hc
    simp [parseTimestampSt, hs, ha, hb, hc]
  · intro t a b x y hs ha hb
    simp [parseTimestampSt, hs, ha, hb]
  · intro t x hs ht
    simp [parseTimestampSt, hs, ht]
  · intro t h2 h3 hf
    rcases hs : pySplit t ':' with _ | ⟨a, _ | ⟨b, _ | ⟨c, _ | ⟨d, rest⟩⟩⟩⟩
    · simp [parseTimestampSt, hs, hf]
    · simp [parseTimestampSt, hs, hf]
    · exact absurd (by rw [hs]; rfl) h2
    · exact absurd (by rw [hs]; rfl) h3
    · simp [parseTimestampSt, hs, hf]
  · intro t a b hs hor
    rcases hor with h | h
    · simp [parseTimestampSt, hs, h]
    · rcases hfa : parseFloatQ a with _ | x <;> simp [parseTimestampSt, hs, h, hfa]
  · intro t a b c hs hor
    rcases hor with h | h | h
    · simp [parseTimestampSt, hs, h]
    · rcases hfa : parseFloatQ a with _ | x <;> simp [parseTimestampSt, hs, h, hfa]
    · rcases hfa : parseFloatQ a with _ | x <;>
        rcases hfb : parseFloatQ b with _ | y <;>
          simp [parseTimestampSt, hs, h, hfa, hfb]
  · intro t
    by_cases hc : ':' ∈ t.toList
    · have hcb : t.toList.contains ':' = true := by
        simpa [List.contains] using List.elem_iff.mpr hc
      have hlen : 2 ≤ (pySplit t ':').length := by
        simpa [pySplit] using splitChar_length_ge_two ':' t.toList hc
      rcases hs : pySplit t ':' with _ | ⟨a, _ | ⟨b, _ | ⟨c, _ | ⟨d, rest⟩⟩⟩⟩
      · rw [hs] at hlen; simp at hlen
      · rw [hs] at hlen; simp at hlen
      · rcases hfa : parseFloatQ a with _ | x <;>
          rcases hfb : parseFloatQ b with _ | y <;>
            (simp [parseTimestampApp, parseTimestampSt, hcb, hs, hfa, hfb,
               intTrunc_zero] <;>
              exact fun hni => absurd hc hni)
      · rcases hfa : parseFloatQ a with _ | x <;>
          rcases hfb : parseFloatQ b with _ | y <;>
            rcases hfc : parseFloatQ c with _ | z <;>
              (simp [parseTimestampApp, parseTimestampSt, hcb, hs, hfa, hfb, hfc,
                 intTrunc_zero] <;>
                exact fun hni => absurd hc hni)
      · rcases hft : parseFloatQ t with _ | v <;>
          (simp [parseTimestampApp, parseTimestampSt, hcb, hs, hft,
             intTrunc_zero] <;>
            exact fun hni => absurd hc hni)
    · have hcb : t.toList.contains ':' = false := by
        cases he : t.toList.elem ':' with
        | false => simpa [List.contains] using he
        | true => exact absurd (List.elem_iff.mp he) hc
      have hs := pySplit_not_contains t hc
      rcases hft : parseFloatQ t with _ | v <;>
        (simp [parseTimestampApp, parseTimestampSt, hcb, hs, hft,
           intTrunc_zero] <;>
          exact fun hmem => absurd hmem hc)

/-- C10 amended witness at concrete inputs. -/
theorem parse_timestamp_parsers_amended_witness :
    pySplit "1:02:03" ':' = ["1", "02", "03"] ∧
      parseFloatQ "1" = some 1 ∧ parseFloatQ "02" = some 2 ∧
      parseFloatQ "03" = some 3 ∧
      parseTimestampSt "1:02:03" = 1 * 3600 + 2 * 60 + 3 ∧
      parseTimestampApp "1:02:03" = intTrunc (parseTimestampSt "1:02:03") :=
  ⟨by with_unfolding_all decide, by with_unfolding_all decide,
    by with_unfolding_all decide, by with_unfolding_all decide,
    parse_timestamp_parsers_amended.1 "1:02:03" "1" "02" "03" 1 2 3
      (by with_unfolding_all decide) (by with_unfolding_all decide)
      (by with_unfolding_all decide) (by with_unfolding_all decide),
    parse_timestamp_parsers_amended.2.2.2.2.2.2 "1:02:03"⟩

/-! ## Claim C3 -/

/-- C3 counterexample: on the claimed input the consolidator returns ONE
merged window, not the claimed two, because line 167 of streamlit_app.py
adds 10 seconds to every parsed end time — also when the end is present,
as the single present-end segment (0,10) becoming the window (0,20)
shows — so the effective windows (0,20), (8,25), (30,50) chain together
under the 5-second buffer. -/
theorem merge_segments_two_window_counterexample :
    (mergeVideoSegments c3Input).length = 1 ∧
      mergeVideoSegments c3PresentOne =
        [{ path := "u.mp4", start_time := 0, end_time := 20,
           text := "hello", score := 1/2 }] := by
  with_unfolding_all decide

/-- C3 amended: with the 5-second merge buffer, the input windows (0,10),
(8,15), (30,40) on one video — after the code's unconditional 10-second
end extension — merge into the single window (0,50) carrying the
concatenated text and the maximum score; an absent end time defaults to
the start, so its extended end is start + 10. -/
theorem merge_segments_amended :
    mergeVideoSegments c3Input =
      [{ path := "v.mp4", start_time := 0, end_time := 50,
         text := "alpha bravo charlie", score := 1/2 }] ∧
      mergeVideoSegments c3SingleAbsent =
        [{ path := "w.mp4", start_time := 7, end_time := 17,
           text := "solo", score := 1/4 }] := by
  with_unfolding_all decide

/-! ## Claim C9 -/

/-- C9 counterexample: from_dict strips the text, so the dictionary round
trip of a VideoSegment with surrounding whitespace in its text differs
from the original in the text field (not only in metadata); and two
VideoSegments differing only in metadata are NOT equal under the
dataclass-generated equality, so metadata is not excluded from equality. -/
theorem video_segment_roundtrip_counterexample :
    (videoSegmentFromDict (videoSegmentToDict segPadded)).text ≠ segPadded.text ∧
      videoSegmentPyEq segPadded { segPadded with metadata := [("k", "v")] } = false := by
  with_unfolding_all decide

/-- C9 amended: the dictionary round trip reproduces every field except
that the text comes back whitespace-stripped (metadata is preserved
as-is); the round trip is the identity exactly on segments whose text is
already stripped; metadata is excluded from hashing (the hashed field
tuple ignores it) but participates in equality, which coincides with full
structural equality. -/
theorem video_segment_roundtrip_amended :
    (∀ s : VideoSegment,
       videoSegmentFromDict (videoSegmentToDict s) = { s with text := pyStrip s.text })
  ∧ (∀ (s : VideoSegment) (m : List (String × String)),
       videoSegmentHashFields { s with metadata := m } = videoSegmentHashFields s)
  ∧ (∀ a b : VideoSegment, videoSegmentPyEq a b = true ↔ a = b)
  ∧ (∀ s : VideoSegment, pyStrip s.text = s.text →
       videoSegmentFromDict (videoSegmentToDict s) = s) := by
  refine ⟨?_, ?_, ?_, ?_⟩
  · intro s
    cases s with
    | mk text video timestamp score metadata => cases timestamp; rfl
  · intro s m
    rfl
  · intro a b
    cases a with
    | mk ta va tsa sa ma =>
        cases b with
        | mk tb vb tsb sb mb =>
            simp [videoSegmentPyEq, VideoSegment.mk.injEq, and_assoc]
  · intro s h
    have h1 := (fun s => by
      cases s with
      | mk text video timestamp score metadata => cases timestamp; rfl :
        ∀ s : VideoSegment,
          videoSegmentFromDict (videoSegmentToDict s) = { s with text := pyStrip s.text }) s
    rw [h1, h]

/-- C9 amended witness at a concrete segment with stripped text. -/
theorem video_segment_roundtrip_amended_witness :
    pyStrip "hi" = "hi" ∧
      videoSegmentFromDict (videoSegmentToDict
        { text := "hi", video := "v.mp4", timestamp := { start := "0", stop := "5" },
          score := 1/2, metadata := [("k", "v")] }) =
        { text := "hi", video := "v.mp4", timestamp := { start := "0", stop := "5" },
          score := 1/2, metadata := [("k", "v")] } :=
  ⟨by with_unfolding_all decide,
    video_segment_roundtrip_amended.2.2.2
      { text := "hi", video := "v.mp4", timestamp := { start := "0", stop := "5" },
        score := 1/2, metadata := [("k", "v")] }
      (by with_unfolding_all decide)⟩

/-! ## Claims C1, C4, C5 (the score_threshold call bug) -/

/-- C1: the claimed score-threshold invariant cannot hold as an invariant
of the code: VideoRetriever.search takes no score_threshold parameter and
filters nothing by score (here it returns a segment scoring 1/10 while the
caller asked for threshold 7/10), and the invocation named in the claim —
generate_response forwarding score_threshold to retriever.search — raises
TypeError, so every valid call returns an error response with empty
sources and the model is never called. -/
theorem generator_score_threshold_code_bug :
    searchCallOk = false
  ∧ retrieverSearch storeOne "what is great red spot" 3 =
      [{ text := "jupiter storm", video := "v.mp4", tsStart := "00:00:01.000",
         tsEnd := "00:00:04.000", score := 1/10,
         metadata := [("video_size_bytes", "10")] }]
  ∧ (1 : ℚ)/10 < 7/10
  ∧ generateResponse envThirdTry "what is great red spot" 3 (7/10) 3 =
      (some { answer := noInfoAnswer, sources := [],
              error := some ("Invalid input: " ++ searchKwargMsg) }, 0) := by
  with_unfolding_all decide

/-- C4: the retry loop of generate_response does implement the claimed
policy in isolation — two rate-limit failures then success yields the
third attempt's text after exactly 3 model calls, exhausting all retries
on rate-limit failures yields the rate-limit-specific message, and a
non-rate-limit failure is raised after a single call — but generate_response
itself never reaches the loop: the search invocation raises TypeError
first, so the scenario's claimed successful response is impossible (zero
model calls, has_error true). -/
theorem generator_retry_policy_code_bug :
    genLoopGo llmThirdTry 3 (List.range 3) =
      (.ok (some "Jupiter has a storm."), 3)
  ∧ genLoopGo llmLimited 3 (List.range 3) =
      (.error (.other "Rate limit exceeded"), 3)
  ∧ handleError (.other "Rate limit exceeded") =
      { answer := noInfoAnswer, sources := [],
        error := some "Rate limit exceeded. Please try again later." }
  ∧ genLoopGo (fun _ => .error (.other "boom")) 3 (List.range 3) =
      (.error (.other "boom"), 1)
  ∧ handleError (.other "boom") =
      { answer := noInfoAnswer, sources := [], error := some "Error: boom" }
  ∧ generateResponse envThirdTry "what is great red spot" 3 (1/2) 3 =
      (some { answer := noInfoAnswer, sources := [],
              error := some ("Invalid input: " ++ searchKwargMsg) }, 0) := by
  with_unfolding_all decide

/-- C5: for a valid query over a store with zero hits the claim demands a
success-shaped no-information response, but generate_response returns
has_error = true with the TypeError text of the search invocation; the
zero-segment branch of generator.py lines 230-233 is unreachable. -/
theorem generator_zero_segments_code_bug :
    retrieverSearch storeEmpty "what is python" 5 = []
  ∧ generateResponse envEmptyStore "what is python" 5 (1/2) 3 =
      (some { answer := noInfoAnswer, sources := [],
              error := some ("Invalid input: " ++ searchKwargMsg) }, 0)
  ∧ SearchResponse.hasError
      { answer := noInfoAnswer, sources := [],
        error := some ("Invalid input: " ++ searchKwargMsg) } = true := by
  with_unfolding_all decide

/-! ## Claim C8 -/

/-- C8: a query whose stripped length is below the minimum of 3 fails
validation before any search or model call: generate_response returns the
fallback answer with has_error = true and the model is called zero
times — for every environment, k, score_threshold and retry count. -/
theorem short_query_rejected (env : GenEnv) (query : String) (k : Nat)
    (st : ℚ) (retries : Nat) (h : (pyStrip query).length < 3) :
    generateResponse env query k st retries =
      (some { answer := noInfoAnswer, sources := [],
              error := some "Invalid input: Query length must be between 3 and 500 characters" }, 0)
  ∧ SearchResponse.hasError
      { answer := noInfoAnswer, sources := [],
        error := some "Invalid input: Query length must be between 3 and 500 characters" } = true := by
  have hv : validateQuery query =
      .error (.valueError "Query length must be between 3 and 500 characters") := by
    unfold validateQuery
    rw [if_neg]
    intro hcon
    omega
  refine ⟨?_, by with_unfolding_all decide⟩
  simp [generateResponse, hv, handleError]

/-! ## Claim C2 -/

/-- C2: upsert_video is idempotent.  First conjunct: whenever the store
already holds a document whose metadata video_filename equals the given
filename, the call changes nothing and embeds nothing.  Second conjunct:
for any starting store and unchanged files, calling upsert_video twice
leaves the same document count as calling it once. -/
theorem upsert_video_idempotent :
    (∀ (env : FsEnv) (store : List Doc) (f : String),
       isVideoUpserted store f = true → upsertVideo env store f = (store, 0))
  ∧ (∀ (env : FsEnv) (store : List Doc) (f : String),
       ((upsertVideo env (upsertVideo env store f).1 f).1).length =
         ((upsertVideo env store f).1).length) := by
  constructor
  · intro env store f h
    simp [upsertVideo, h]
  · intro env store f
    by_cases hv : env.videoExists f = true
    · by_cases hu : isVideoUpserted store f = true
      · simp [upsertVideo, hv, hu]
      · by_cases hc : (!env.transcriptFound f && !env.hasTranscriber) = true
        · simp [upsertVideo, hv, hu, hc]
        · by_cases hd : (buildDocuments (env.segments f) f (env.metaExtra f)).isEmpty = true
          · simp [upsertVideo, hv, hu, hc, hd]
          · have hne : buildDocuments (env.segments f) f (env.metaExtra f) ≠ [] := by
              intro hnil
              rw [hnil] at hd
              simp at hd
            have h1 : (upsertVideo env store f).1 =
                store ++ buildDocuments (env.segments f) f (env.metaExtra f) := by
              simp [upsertVideo, hv, hu, hc, hd]
            have h2 : isVideoUpserted
                (store ++ buildDocuments (env.segments f) f (env.metaExtra f)) f = true :=
              isVideoUpserted_append_of _ _ _ hne
                (buildDocuments_filename (env.segments f) f (env.metaExtra f))
            rw [h1]
            simp [upsertVideo, h2]
    · simp [upsertVideo, hv]

/-- C2 witness: a store already holding a v.mp4 document is untouched and
nothing is embedded; and from an empty store, two calls leave the same
count as one. -/
theorem upsert_video_idempotent_witness :
    isVideoUpserted storeWithV "v.mp4" = true ∧
      upsertVideo fsEnvA storeWithV "v.mp4" = (storeWithV, 0) ∧
      ((upsertVideo fsEnvA (upsertVideo fsEnvA [] "v.mp4").1 "v.mp4").1).length =
        ((upsertVideo fsEnvA [] "v.mp4").1).length :=
  ⟨by with_unfolding_all decide,
    upsert_video_idempotent.1 fsEnvA storeWithV "v.mp4" (by with_unfolding_all decide),
    upsert_video_idempotent.2 fsEnvA [] "v.mp4"⟩

/-! ## Claim C6 -/

/-- C6: search_transcriptions requests k*2 candidates from the store (the
definition calls the similarity search with k*2), and — provided the store
honors the top-n contract and returns at most k*2 results — the returned
list equals the first-occurrence-wins deduplication of the candidate list
by the (text, start_time, end_time, video_filename) key, truncated at k
unique results; hence it contains no two entries with the same key and
has length at most k. -/
theorem search_transcriptions_dedup (env : StoreEnv) (query : String) (k : Nat)
    (hlen : (env.similarity query (k * 2)).length ≤ k * 2) :
    searchTranscriptions env query k =
      ((dedupBy pairKey [] (env.similarity query (k * 2))).map
        (fun p => formatSearchResult p.1 p.2)).take k
  ∧ ((searchTranscriptions env query k).map rawKey).Nodup
  ∧ (searchTranscriptions env query k).length ≤ k := by
  have heq : searchTranscriptions env query k =
      ((dedupBy pairKey [] (env.similarity query (k * 2))).map
        (fun p => formatSearchResult p.1 p.2)).take k := by
    rcases Nat.eq_zero_or_pos k with h0 | hpos
    · subst h0
      have hnil : env.similarity query (0 * 2) = [] :=
        List.eq_nil_of_length_eq_zero (Nat.le_zero.mp (by simpa using hlen))
      have hnil2 : env.similarity query 0 = [] := by simpa using hnil
      simp [searchTranscriptions, hnil2, searchCollect]
    · have h := searchCollect_eq k (env.similarity query (k * 2)) [] []
        (by simpa using hpos)
      simpa [searchTranscriptions] using h
  refine ⟨heq, ?_, ?_⟩
  · rw [heq, ← List.map_take]
    have hcomp : ∀ l : List (Doc × ℚ),
        (l.map (fun p => formatSearchResult p.1 p.2)).map rawKey = l.map pairKey := by
      intro l
      rw [List.map_map]
      rfl
    rw [hcomp]
    exact (dedupBy_keys_nodup pairKey [] _).sublist
      ((List.take_sublist _ _).map pairKey)
  · rw [heq, List.length_take]
    exact Nat.min_le_left _ _

/-- C6 witness: a candidate list with an exact duplicate, k = 2. -/
theorem search_transcriptions_dedup_witness :
    (storeDup.similarity "q" (2 * 2)).length ≤ 2 * 2 ∧
      searchTranscriptions storeDup "q" 2 =
        [{ text := "jupiter storm", start_time := "00:00:01.000",
           end_time := "00:00:04.000", video_filename := "v.mp4",
           relevance_score := 9/10, metadata := [("video_size_bytes", "10")] },
         { text := "install python", start_time := "1", end_time := "2",
           video_filename := "w.mp4", relevance_score := 7/10, metadata := [] }] ∧
      ((searchTranscriptions storeDup "q" 2).map rawKey).Nodup ∧
      (searchTranscriptions storeDup "q" 2).length ≤ 2 :=
  ⟨by with_unfolding_all decide, by with_unfolding_all decide,
    (search_transcriptions_dedup storeDup "q" 2 (by with_unfolding_all decide)).2.1,
    (search_transcriptions_dedup storeDup "q" 2 (by with_unfolding_all decide)).2.2⟩

/-! ## Claim C7 -/

/-- C7: within a single upsert_video call the submitted batch contains no
two documents sharing the (text, start_time, end_time) triple, and hence
every store reachable by a sequence of upsert_video calls from an empty
store satisfies the per-video invariant: no two documents of the same
video share that triple. -/
theorem upsert_dedup_invariant :
    (∀ (segs : List RawSeg) (f : String) (extra : List (String × String)),
       ((buildDocuments segs f extra).map docTriple).Nodup)
  ∧ (∀ (env : FsEnv) (calls : List String), PerVideoNodup (runUpserts env calls)) := by
  refine ⟨buildDocuments_triples_nodup, ?_⟩
  intro env calls
  have hstep : ∀ (cs : List String) (s : List Doc), PerVideoNodup s →
      PerVideoNodup (cs.foldl (fun s f => (upsertVideo env s f).1) s) := by
    intro cs
    induction cs with
    | nil => intro s hs; exact hs
    | cons c cs ih =>
        intro s hs
        exact ih _ (perVideoNodup_upsert env s c hs)
  refine hstep calls [] ?_
  intro g
  simp [PerVideoNodup]

/-- C8 witness: the query "ab" (stripped length 2). -/
theorem short_query_rejected_witness :
    (pyStrip "ab").length < 3 ∧
      generateResponse envThirdTry "ab" 5 (1/2) 3 =
        (some { answer := noInfoAnswer, sources := [],
                error := some "Invalid input: Query length must be between 3 and 500 characters" }, 0) :=
  ⟨by with_unfolding_all decide,
    (short_query_rejected envThirdTry "ab" 5 (1/2) 3
      (by with_unfolding_all decide)).1⟩

end RAGVideo
